import Mathlib

/-!
Verification of the Sapphire event core (`src/sapphire/core/base/events.py`)
and the Logger reference module (`src/sapphire/logger/logger.py`).

The Python code is shallowly embedded: the class-level mutable state of
`SapphireEvents` (`_intern_chain`, `_current_context`) becomes an explicit
`AllocState` threaded through the operations; Python's unbounded `int`
becomes `Nat` (the counters only start at 0 and increment); fallible code
returns `Except`.
-/

namespace Sapphire

/-- Python `Chain` from events.py: frozen dataclass with fields `context` and `flow`;
equality is by the `(context, flow)` pair. -/
structure Chain where
  context : Nat
  flow : Nat
deriving DecidableEq, Repr

/-- Python `SapphireEvents.Event` from events.py: frozen dataclass base with
`sender`, `timestamp`, `chain`. -/
structure Event where
  sender : String
  timestamp : String
  chain : Chain
deriving DecidableEq, Repr

/-- The class-level mutable state of `SapphireEvents`: the `_intern_chain`
cursor and the `_current_context` counter (`_lock` only serializes access,
which the sequential embedding makes implicit). -/
structure AllocState where
  internChain : Chain
  currentContext : Nat
deriving DecidableEq, Repr

/-- The initial class-level state: `_intern_chain = Chain(0, 0)`,
`_current_context = 0`. -/
def initState : AllocState := { internChain := ⟨0, 0⟩, currentContext := 0 }

/-- Method `SapphireEvents.chain(event)`: if an event is supplied, return its chain
and leave the state alone; otherwise return the current `_intern_chain` and
replace it by `Chain(0, chain.flow + 1)`. -/
def chainOp (event : Option Event) (s : AllocState) : Chain × AllocState :=
  match event with
  | some e => (e.chain, s)
  | none =>
      let c := s.internChain
      (c, { s with internChain := ⟨0, c.flow + 1⟩ })

/-- Method `SapphireEvents.new_context_chain()`: increment `_current_context` under
the lock, then build `Chain(cls._current_context, 0)` from the updated
counter. -/
def new_context_chain (s : AllocState) : Chain × AllocState :=
  let s' := { s with currentContext := s.currentContext + 1 }
  (⟨s'.currentContext, 0⟩, s')

/-- An allocator call: `chain(event?)` or `new_context_chain()`. -/
inductive AllocOp where
  | chainArg (event : Option Event)
  | newContext
deriving Repr

/-- Run one allocator call on the class-level state. -/
def runOp : AllocOp → AllocState → Chain × AllocState
  | .chainArg e, s => chainOp e s
  | .newContext, s => new_context_chain s

/-- Run a sequence of allocator calls, collecting each call with its
returned chain. -/
def runOps : List AllocOp → AllocState → List (AllocOp × Chain) × AllocState
  | [], s => ([], s)
  | op :: rest, s =>
      let (c, s') := runOp op s
      let (cs, s'') := runOps rest s'
      ((op, c) :: cs, s'')

/-- The chains returned by `N` consecutive `chain()` calls with no event. -/
def allocChains : Nat → AllocState → List Chain
  | 0, _ => []
  | n + 1, s =>
      let (c, s') := chainOp none s
      c :: allocChains n s'

/-- The chains returned by `M` consecutive `new_context_chain()` calls. -/
def allocContextChains : Nat → AllocState → List Chain
  | 0, _ => []
  | m + 1, s =>
      let (c, s') := new_context_chain s
      c :: allocContextChains m s'

theorem allocChains_flow (n : Nat) (s : AllocState) :
    (allocChains n s).map Chain.flow = List.range' s.internChain.flow n := by
  induction n generalizing s with
  | zero => rfl
  | succ n ih =>
      rw [List.range'_succ]
      simp only [allocChains, chainOp, List.map_cons, ih]

theorem allocContextChains_eq (m : Nat) (s : AllocState) :
    allocContextChains m s =
      (List.range' (s.currentContext + 1) m).map (fun k => Chain.mk k 0) := by
  induction m generalizing s with
  | zero => rfl
  | succ m ih =>
      rw [List.range'_succ]
      simp only [allocContextChains, new_context_chain, List.map_cons, ih]

/-- Claim C3: allocating `N` chains with no event from any starting state:
each call returns the pre-advance cursor and advances its flow by 1, and the
`N` returned flow values are `N` distinct values all in `[f0, f0 + N)`
for the starting flow `f0`. -/
theorem chain_alloc_flows_distinct_in_range (N : Nat) (s : AllocState) :
    ((chainOp none s).1 = s.internChain ∧
      (chainOp none s).2.internChain.flow = s.internChain.flow + 1) ∧
    (allocChains N s).length = N ∧
    ((allocChains N s).map Chain.flow).Nodup ∧
    ∀ f ∈ (allocChains N s).map Chain.flow,
      s.internChain.flow ≤ f ∧ f < s.internChain.flow + N := by
  refine ⟨⟨rfl, rfl⟩, ?_, ?_, ?_⟩
  · have h := congrArg List.length (allocChains_flow N s)
    simpa using h
  · rw [allocChains_flow]
    exact List.nodup_range' _ _
  · intro f hf
    rw [allocChains_flow] at hf
    rw [List.mem_range'_1] at hf
    omega

/-- Witness for C3 at a concrete run of two `chain()` calls from the fresh
state. -/
theorem chain_alloc_flows_distinct_in_range_witness :
    ((allocChains 2 initState).map Chain.flow).Nodup ∧
    (initState.internChain.flow ≤ 1 ∧ 1 < initState.internChain.flow + 2) :=
  ⟨(chain_alloc_flows_distinct_in_range 2 initState).2.2.1,
   (chain_alloc_flows_distinct_in_range 2 initState).2.2.2 1 (by decide)⟩

/-- The chains returned by the `new_context_chain()` calls of a trace, in
call order. -/
def newContextResults (trace : List (AllocOp × Chain)) : List Chain :=
  trace.filterMap fun p =>
    match p.1 with
    | .newContext => some p.2
    | .chainArg _ => none

/-- How many of the calls are `new_context_chain()` calls. -/
def countNewContext (ops : List AllocOp) : Nat :=
  (ops.filter fun op => match op with | .newContext => true | .chainArg _ => false).length

theorem chainOp_currentContext (e : Option Event) (s : AllocState) :
    (chainOp e s).2.currentContext = s.currentContext := by
  cases e <;> rfl

theorem newContextResults_runOps (ops : List AllocOp) (s : AllocState) :
    newContextResults (runOps ops s).1 =
      (List.range' (s.currentContext + 1) (countNewContext ops)).map (fun k => Chain.mk k 0) := by
  induction ops generalizing s with
  | nil => rfl
  | cons op rest ih =>
      cases op with
      | chainArg e =>
          simp only [runOps, newContextResults, List.filterMap_cons, countNewContext,
            List.filter_cons]
          have h := ih (chainOp e s).2
          rw [chainOp_currentContext] at h
          simpa [newContextResults, countNewContext] using h
      | newContext =>
          simp only [runOps, newContextResults, List.filterMap_cons, countNewContext,
            List.filter_cons, List.length_cons, List.range'_succ, List.map_cons]
          have h := ih (new_context_chain s).2
          simpa [newContextResults, countNewContext, new_context_chain, runOp,
            List.range'_succ] using h

/-- Claim C4: in any sequence of allocator calls containing `M` calls to
`new_context_chain()`, the `M` returned context values are pairwise
distinct and strictly increasing over the whole run (no context value is
reused), and every chain returned by `new_context_chain()` has `flow = 0`. -/
theorem new_context_chains_increasing (ops : List AllocOp) (s : AllocState) :
    (newContextResults (runOps ops s).1).length = countNewContext ops ∧
    ((newContextResults (runOps ops s).1).map Chain.context).Chain' (· < ·) ∧
    ((newContextResults (runOps ops s).1).map Chain.context).Nodup ∧
    ∀ c ∈ newContextResults (runOps ops s).1, c.flow = 0 := by
  have hctx : (newContextResults (runOps ops s).1).map Chain.context =
      List.range' (s.currentContext + 1) (countNewContext ops) := by
    rw [newContextResults_runOps]
    simp [List.map_map, Function.comp_def]
  refine ⟨?_, ?_, ?_, ?_⟩
  · have h := congrArg List.length hctx
    simpa using h
  · rw [hctx]
    exact (List.pairwise_lt_range' _ _).chain'
  · rw [hctx]
    exact List.nodup_range' _ _
  · intro c hc
    rw [newContextResults_runOps] at hc
    simp only [List.mem_map] at hc
    obtain ⟨k, _, rfl⟩ := hc
    rfl

/-- Witness for C4 at a concrete run interleaving two `new_context_chain()`
calls with a `chain()` call: the second allocated context chain is
`(2, 0)` and has `flow = 0`. -/
theorem new_context_chains_increasing_witness :
    (Chain.mk 2 0).flow = 0 :=
  (new_context_chains_increasing [.newContext, .chainArg none, .newContext]
      initState).2.2.2 ⟨2, 0⟩ (by decide)

/-- Claim C8: `chain(event)` with an event supplied returns exactly
`event.chain` and leaves the allocator state (cursor and context counter)
unchanged. -/
theorem chain_with_event_identity (e : Event) (s : AllocState) :
    chainOp (some e) s = (e.chain, s) := rfl

theorem internChain_context_invariant (ops : List AllocOp) (s : AllocState)
    (h : s.internChain.context = 0) :
    (runOps ops s).2.internChain.context = 0 := by
  induction ops generalizing s with
  | nil => exact h
  | cons op rest ih =>
      cases op with
      | chainArg e =>
          cases e with
          | none => exact ih _ rfl
          | some ev => exact ih _ h
      | newContext => exact ih _ h

theorem trace_chain_none_context (ops : List AllocOp) (s : AllocState)
    (h : s.internChain.context = 0) :
    (runOps ops s).2.internChain.context = 0 ∧
    ∀ c : Chain, (AllocOp.chainArg none, c) ∈ (runOps ops s).1 → c.context = 0 := by
  induction ops generalizing s with
  | nil =>
      exact ⟨h, by intro c hc; simp [runOps] at hc⟩
  | cons op rest ih =>
      have hpres : (runOp op s).2.internChain.context = 0 := by
        cases op with
        | chainArg e => cases e with
          | none => rfl
          | some ev => exact h
        | newContext => exact h
      obtain ⟨h1, h2⟩ := ih (runOp op s).2 hpres
      refine ⟨by simpa [runOps] using h1, ?_⟩
      intro c hc
      simp only [runOps, List.mem_cons] at hc
      rcases hc with hc | hc
      · have hop : op = AllocOp.chainArg none ∧ (runOp op s).1 = c := by
          cases op with
          | chainArg e =>
              cases e with
              | none => exact ⟨rfl, (Prod.mk.injEq _ _ _ _ ▸ hc).2.symm⟩
              | some ev => simp at hc
          | newContext => simp at hc
        have : (runOp (AllocOp.chainArg none) s).1 = c := hop.1 ▸ hop.2
        have hcs : c = s.internChain := by
          rw [← this]; rfl
        rw [hcs]; exact h
      · exact h2 c hc

/-- Claim C10: starting from the initial allocator state, after any sequence
of allocator calls the `_intern_chain` cursor has `context = 0`, and every
chain returned by a `chain()` call with no event has `context = 0`. -/
theorem chain_context_zero_invariant (ops : List AllocOp) :
    (runOps ops initState).2.internChain.context = 0 ∧
    ∀ c : Chain, (AllocOp.chainArg none, c) ∈ (runOps ops initState).1 → c.context = 0 :=
  trace_chain_none_context ops initState rfl

/-- Witness for C10 at a concrete run: the one chain returned by
`chain()` on the fresh state has `context = 0`. -/
theorem chain_context_zero_invariant_witness : (Chain.mk 0 0).context = 0 :=
  (chain_context_zero_invariant [AllocOp.chainArg none]).2 ⟨0, 0⟩
    (by simp [runOps, runOp, chainOp, initState])

/-! ## Event registry (`SapphireEvents.serialize`) -/

/-- The event classes found in `SapphireEvents`' class dictionary: the base
`Event` plus the sixteen concrete event dataclasses. -/
inductive EventTy where
  | Event
  | InitCompleteEvent
  | LogEvent
  | ShutdownEvent
  | UserInputEvent
  | CommandRegisterEvent
  | CommandEvent
  | CommandExecutedEvent
  | ConfirmationEvent
  | ErrorEvent
  | PromptEvent
  | AIResponseEvent
  | ClientActivationEvent
  | TaskRegisterEvent
  | TaskEvent
  | TaskCompletionEvent
  | TaskMapUpdatedEvent
deriving DecidableEq, Repr

/-- A member of `SapphireEvents.__dict__`, abstracted by what the registry
build loop tests: whether the attribute is a `type` (a class) and, if so,
whether it is a subclass of `SapphireEvents.Event` (and which one). -/
inductive ClassMember where
  /-- `Chain = Chain`: a class, but not an `Event` subclass. -/
  | chainCls
  /-- `Event` itself or one of its subclasses (`issubclass` is reflexive). -/
  | eventCls (t : EventTy)
  /-- A non-type attribute: `_lock`, `_intern_chain`, `_current_context`,
  `_intern_map`, or a classmethod object. -/
  | nonType
deriving DecidableEq, Repr

/-- The entries of `SapphireEvents.__dict__` in declaration order
(dunder attributes are further `nonType` members and are omitted; they never
pass the `isinstance(attr, type)` test). -/
def sapphireEventsDict : List (String × ClassMember) :=
  [("Chain", .chainCls),
   ("_lock", .nonType),
   ("_intern_chain", .nonType),
   ("_current_context", .nonType),
   ("_intern_map", .nonType),
   ("chain", .nonType),
   ("new_context_chain", .nonType),
   ("make_timestamp", .nonType),
   ("serialize", .nonType),
   ("Event", .eventCls .Event),
   ("InitCompleteEvent", .eventCls .InitCompleteEvent),
   ("LogEvent", .eventCls .LogEvent),
   ("ShutdownEvent", .eventCls .ShutdownEvent),
   ("UserInputEvent", .eventCls .UserInputEvent),
   ("CommandRegisterEvent", .eventCls .CommandRegisterEvent),
   ("CommandEvent", .eventCls .CommandEvent),
   ("CommandExecutedEvent", .eventCls .CommandExecutedEvent),
   ("ConfirmationEvent", .eventCls .ConfirmationEvent),
   ("ErrorEvent", .eventCls .ErrorEvent),
   ("PromptEvent", .eventCls .PromptEvent),
   ("AIResponseEvent", .eventCls .AIResponseEvent),
   ("ClientActivationEvent", .eventCls .ClientActivationEvent),
   ("TaskRegisterEvent", .eventCls .TaskRegisterEvent),
   ("TaskEvent", .eventCls .TaskEvent),
   ("TaskCompletionEvent", .eventCls .TaskCompletionEvent),
   ("TaskMapUpdatedEvent", .eventCls .TaskMapUpdatedEvent)]

/-- The build loop of `serialize`: keep the attributes that are types and
subclasses of `Event` (`Chain` fails `issubclass(attr, Event)`;
non-types fail `isinstance(attr, type)`). -/
def internMap : List (String × EventTy) :=
  sapphireEventsDict.filterMap fun p =>
    match p.2 with
    | .eventCls t => some (p.1, t)
    | .chainCls => none
    | .nonType => none

/-- Python errors raised by this code. `ValueError` and `KeyError` are the
classes that occur; in Python's exception hierarchy `KeyError` is a subclass
of `LookupError` while `ValueError` is not. -/
inductive PyErr where
  | valueError (msg : String)
  | keyError (key : String)
deriving DecidableEq, Repr

/-- Whether the raised error belongs to Python's `LookupError` hierarchy
(`LookupError`, `KeyError`, `IndexError`). `ValueError` does not. -/
def PyErr.isLookupErrorClass : PyErr → Bool
  | .valueError _ => false
  | .keyError _ => true

/-- Method `SapphireEvents.serialize(event)`: look the name up in the (lazily
built, here pre-computed) `_intern_map`; raise
`ValueError(f"Unknown event: {event}")` when absent. -/
def serialize (event : String) : Except PyErr EventTy :=
  match internMap.lookup event with
  | some t => .ok t
  | none => .error (.valueError ("Unknown event: " ++ event))

/-- The names `serialize` resolves: the sixteen concrete event class names
plus `"Event"` itself. -/
def resolvableNames : List String :=
  ["Event", "InitCompleteEvent", "LogEvent", "ShutdownEvent", "UserInputEvent",
   "CommandRegisterEvent", "CommandEvent", "CommandExecutedEvent",
   "ConfirmationEvent", "ErrorEvent", "PromptEvent", "AIResponseEvent",
   "ClientActivationEvent", "TaskRegisterEvent", "TaskEvent",
   "TaskCompletionEvent", "TaskMapUpdatedEvent"]

/-- The sixteen concrete event type names listed by the claim (without the
base class name `"Event"`). -/
def concreteEventNames : List String := resolvableNames.tail

set_option maxRecDepth 4000 in
theorem serialize_isOk_iff (n : String) :
    (serialize n).isOk = true ↔ n ∈ resolvableNames := by
  have h1 : (serialize n).isOk = (internMap.lookup n).isSome := by
    unfold serialize
    cases internMap.lookup n <;> rfl
  have hkeys : internMap.map Prod.fst = resolvableNames := rfl
  rw [h1, List.lookup_isSome_iff, ← hkeys]
  simp only [List.mem_map, beq_iff_eq]
  constructor
  · rintro ⟨p, hp, rfl⟩
    exact ⟨p, hp, rfl⟩
  · rintro ⟨p, hp, rfl⟩
    exact ⟨p, hp, rfl⟩

/-- Counterexample to claim C1: the claim says only the sixteen concrete event
type names resolve; but `issubclass(Event, Event)` holds, so the base-class
name `"Event"` — which is not among the sixteen — also resolves. -/
theorem serialize_resolves_base_Event :
    serialize "Event" = .ok .Event ∧ "Event" ∉ concreteEventNames := by
  constructor
  · rfl
  · decide

/-- Claim C1 (amended): the set of names `serialize` resolves is exactly the
sixteen concrete event type names together with the base name `"Event"`,
and each name resolves to its own event class. -/
theorem serialize_resolvable_names :
    (∀ n : String, (serialize n).isOk = true ↔ n ∈ resolvableNames) ∧
    serialize "Event" = .ok .Event ∧
    serialize "InitCompleteEvent" = .ok .InitCompleteEvent ∧
    serialize "LogEvent" = .ok .LogEvent ∧
    serialize "ShutdownEvent" = .ok .ShutdownEvent ∧
    serialize "UserInputEvent" = .ok .UserInputEvent ∧
    serialize "CommandRegisterEvent" = .ok .CommandRegisterEvent ∧
    serialize "CommandEvent" = .ok .CommandEvent ∧
    serialize "CommandExecutedEvent" = .ok .CommandExecutedEvent ∧
    serialize "ConfirmationEvent" = .ok .ConfirmationEvent ∧
    serialize "ErrorEvent" = .ok .ErrorEvent ∧
    serialize "PromptEvent" = .ok .PromptEvent ∧
    serialize "AIResponseEvent" = .ok .AIResponseEvent ∧
    serialize "ClientActivationEvent" = .ok .ClientActivationEvent ∧
    serialize "TaskRegisterEvent" = .ok .TaskRegisterEvent ∧
    serialize "TaskEvent" = .ok .TaskEvent ∧
    serialize "TaskCompletionEvent" = .ok .TaskCompletionEvent ∧
    serialize "TaskMapUpdatedEvent" = .ok .TaskMapUpdatedEvent := by
  exact ⟨serialize_isOk_iff, rfl, rfl, rfl, rfl, rfl, rfl, rfl, rfl, rfl, rfl,
    rfl, rfl, rfl, rfl, rfl, rfl, rfl⟩

/-- Counterexample to claim C2: the claim says an unknown name fails with a
`LookupError`-class error; the code raises `ValueError`, which is not in
Python's `LookupError` hierarchy. -/
theorem serialize_unknown_raises_valueError :
    serialize "NotARealEvent" =
      .error (.valueError "Unknown event: NotARealEvent") ∧
    (PyErr.valueError "Unknown event: NotARealEvent").isLookupErrorClass = false := by
  constructor <;> rfl

/-- Claim C2 (amended): for every name that resolves to no event class,
`serialize` raises `ValueError(f"Unknown event: {name}")` — a hard failure
distinct from the allocator (which raises nothing) but of class
`ValueError`, not of Python's `LookupError` hierarchy. -/
theorem serialize_unknown_error (n : String) (h : n ∉ resolvableNames) :
    serialize n = .error (.valueError ("Unknown event: " ++ n)) ∧
    (PyErr.valueError ("Unknown event: " ++ n)).isLookupErrorClass = false := by
  refine ⟨?_, rfl⟩
  have hres := serialize_isOk_iff n
  unfold serialize
  cases hlk : internMap.lookup n with
  | none => rfl
  | some t =>
      exfalso
      exact h (hres.mp (by simp [serialize, hlk, Except.isOk, Except.toBool]))

/-- Witness for C2 at the spec's own example input `"NotARealEvent"`. -/
theorem serialize_unknown_error_witness :
    serialize "NotARealEvent" =
      .error (.valueError ("Unknown event: " ++ "NotARealEvent")) ∧
    (PyErr.valueError ("Unknown event: " ++ "NotARealEvent")).isLookupErrorClass = false :=
  serialize_unknown_error "NotARealEvent" (by decide)

/-! ## Concrete event dataclasses -/

/-- Python type `Literal["debug", "info", "warning", "critical"]` of
`LogEvent.level`. -/
inductive Level where
  | debug
  | info
  | warning
  | critical
deriving DecidableEq, Repr

/-- The string value of a level literal. -/
def Level.toStr : Level → String
  | .debug => "debug"
  | .info => "info"
  | .warning => "warning"
  | .critical => "critical"

/-- Dataclass `SapphireEvents.LogEvent`: frozen dataclass extending `Event` with
`level` and `message`. -/
structure LogEvent extends Event where
  level : Level
  message : String
deriving DecidableEq, Repr

/-- Dataclass `SapphireEvents.UserInputEvent`: frozen dataclass extending `Event`
with `message`. -/
structure UserInputEvent extends Event where
  message : String
deriving DecidableEq, Repr

/-- Dataclass `SapphireEvents.ErrorEvent`: frozen dataclass extending `Event`. Its
body contains the field declaration `error: str` and the plain class-level
assignment `message = str`, which under `dataclass` semantics is **not** a
field (it has no annotation), so instances carry only the four fields
`sender`, `timestamp`, `chain`, `error`. -/
structure ErrorEvent extends Event where
  error : String
deriving DecidableEq, Repr

/-- Claim C9: an `ErrorEvent` value is fully determined by `sender`,
`timestamp`, `chain` and `error`: the class-level `message = str`
assignment adds no per-instance payload (the constructor takes exactly
those four fields). -/
theorem errorEvent_no_message_field (a b : ErrorEvent)
    (hs : a.sender = b.sender) (ht : a.timestamp = b.timestamp)
    (hc : a.chain = b.chain) (he : a.error = b.error) : a = b := by
  cases a with
  | mk ea ra =>
      cases b with
      | mk eb rb =>
          cases ea
          cases eb
          simp only at hs ht hc he
          simp [hs, ht, hc, he]

/-- Witness for C9 at two concrete `ErrorEvent` values. -/
theorem errorEvent_no_message_field_witness :
    (ErrorEvent.mk ⟨"core", "12:00:00", ⟨0, 0⟩⟩ "boom") =
      (ErrorEvent.mk ⟨"core", "12:00:00", ⟨0, 0⟩⟩ "boom") :=
  errorEvent_no_message_field _ _ rfl rfl rfl rfl

/-! ## Logger module (`src/sapphire/logger/logger.py`) -/

/-- Python `str.upper` restricted to ASCII data, as used on the level
strings. -/
def pyUpper (s : String) : String := String.mk (s.data.map Char.toUpper)

/-- Python `str.capitalize` restricted to ASCII data: first character
uppercased, all remaining characters lowercased. -/
def pyCapitalize (s : String) : String :=
  match s.data with
  | [] => ""
  | c :: cs => String.mk (c.toUpper :: cs.map Char.toLower)

namespace Color

/-- ANSI reset, `"\033[0m"`. -/
def RESET : String := "\x1b[0m"

/-- ANSI red, `"\033[31m"`. -/
def RED : String := "\x1b[31m"

/-- ANSI green, `"\033[32m"`. -/
def GREEN : String := "\x1b[32m"

/-- ANSI yellow, `"\033[33m"`. -/
def YELLOW : String := "\x1b[33m"

/-- ANSI magenta, `"\033[35m"`. -/
def MAGENTA : String := "\x1b[35m"

/-- ANSI cyan, `"\033[36m"`. -/
def CYAN : String := "\x1b[36m"

/-- Method `Color.colorify(text, color)`. -/
def colorify (text color : String) : String := color ++ text ++ RESET

/-- Dictionary `Color.level_map`, whose four keys are exactly the values of
the level `Literal`, so it is embedded as a total function on `Level`. -/
def level_map : Level → String
  | .debug => CYAN
  | .info => GREEN
  | .warning => YELLOW
  | .critical => RED

end Color

/-- Dictionary `LEVELS = {"debug": 0, "info": 1, "warning": 2,
"critical": 3}` from logger.py, keyed by arbitrary strings. -/
def LEVELS : List (String × Nat) :=
  [("debug", 0), ("info", 1), ("warning", 2), ("critical", 3)]

/-- Dictionary indexing `LEVELS[s]` (`None` models a `KeyError`). -/
def LEVELS_get (s : String) : Option Nat := LEVELS.lookup s

/-- Rank of a level literal, i.e. `LEVELS[level]` for the four valid
keys. -/
def levelRank : Level → Nat
  | .debug => 0
  | .info => 1
  | .warning => 2
  | .critical => 3

theorem LEVELS_get_toStr (l : Level) : LEVELS_get l.toStr = some (levelRank l) := by
  cases l <;> rfl

/-- Mutable attributes of a `Logger` instance set by `start`. -/
structure LoggerState where
  log_file : String
  log_level : String
  to_terminal : Bool
deriving DecidableEq, Repr

/-- Observable side effects of the logger: a line appended to a file, or a
line printed to the terminal. -/
inductive Effect where
  | fileLine (path : String) (line : String)
  | terminalLine (line : String)
deriving DecidableEq, Repr

/-- The line built by `Logger.file_log`:
`f"[{event.timestamp}] [{event.level.upper()}] ({event.sender.capitalize()}) {event.message}\n"`. -/
def file_log_line (e : LogEvent) : String :=
  "[" ++ e.timestamp ++ "] [" ++ pyUpper e.level.toStr ++ "] (" ++
    pyCapitalize e.sender ++ ") " ++ e.message ++ "\n"

/-- Method `Logger.file_log`: open the log file in append mode and write the
one formatted line. -/
def file_log (st : LoggerState) (e : LogEvent) : List Effect :=
  [.fileLine st.log_file (file_log_line e)]

/-- The line built by `Logger.terminal_log`:
`f"{timestamp} {level} {sender} {message}"` with the level tag colored by
`Color.level_map[event.level]` and the sender tag colored magenta. -/
def terminal_log_line (e : LogEvent) : String :=
  "[" ++ e.timestamp ++ "]" ++ " " ++
    Color.colorify ("[" ++ pyUpper e.level.toStr ++ "]") (Color.level_map e.level) ++ " " ++
    Color.colorify ("(" ++ e.sender ++ ")") Color.MAGENTA ++ " " ++ e.message

/-- Method `Logger.terminal_log`: print the one colored line. -/
def terminal_log (e : LogEvent) : List Effect :=
  [.terminalLine (terminal_log_line e)]

/-- An event as it reaches `Logger.handle`'s `match` statement: a
`LogEvent`, a `UserInputEvent`, or any other event. -/
inductive DispatchEvent where
  | log (e : LogEvent)
  | userInput (e : UserInputEvent)
  | other (e : Event)
deriving DecidableEq, Repr

/-- Method `Logger.handle`: act on a `LogEvent` only when
`LEVELS[event.level] >= LEVELS[self.log_level]` (file sink first, then the
terminal sink when `to_terminal` is set); `UserInputEvent` is an explicit
no-op; other events fall through the `match`. Failed dictionary indexing
is a Python `KeyError`. -/
def Logger.handle (st : LoggerState) (ev : DispatchEvent) : Except PyErr (List Effect) :=
  match ev with
  | .log e =>
      match LEVELS_get e.level.toStr, LEVELS_get st.log_level with
      | some re, some rc =>
          if re ≥ rc then
            .ok (file_log st e ++ (if st.to_terminal then terminal_log e else []))
          else
            .ok []
      | none, _ => .error (.keyError e.level.toStr)
      | some _, none => .error (.keyError st.log_level)
  | .userInput _ => .ok []
  | .other _ => .ok []

/-- Claim C5: with a configured level that is a valid `LEVELS` key of rank
`rc`, a delivered `LogEvent` is acted on — one file line, plus one terminal
line exactly when the terminal sink is enabled — if and only if
`rank(event.level) >= rc`; an event below the threshold produces no effect
at all. The rank order is `debug < info < warning < critical`. -/
theorem logger_handle_level_filter (st : LoggerState) (e : LogEvent) (rc : Nat)
    (h : LEVELS_get st.log_level = some rc) :
    (levelRank e.level ≥ rc →
        Logger.handle st (.log e) =
          .ok ([.fileLine st.log_file (file_log_line e)] ++
            (if st.to_terminal then [.terminalLine (terminal_log_line e)] else []))) ∧
    (levelRank e.level < rc → Logger.handle st (.log e) = .ok []) ∧
    (levelRank .debug < levelRank .info ∧ levelRank .info < levelRank .warning ∧
      levelRank .warning < levelRank .critical) := by
  refine ⟨?_, ?_, by decide⟩ <;>
    intro hcmp <;>
      simp [Logger.handle, LEVELS_get_toStr, h, file_log, terminal_log, hcmp,
        Nat.not_le.mpr, Nat.not_le_of_lt]

/-- Witness for C5: a logger configured at level `"warning"` drops a
debug-level event and accepts a critical-level event. -/
theorem logger_handle_level_filter_witness :
    Logger.handle ⟨"sapphire.log", "warning", true⟩
        (.log ⟨⟨"core", "12:00:00", ⟨0, 0⟩⟩, .debug, "noise"⟩) = .ok [] ∧
    Logger.handle ⟨"sapphire.log", "warning", true⟩
        (.log ⟨⟨"core", "12:00:00", ⟨0, 0⟩⟩, .critical, "bad"⟩) =
      .ok ([.fileLine "sapphire.log"
            (file_log_line ⟨⟨"core", "12:00:00", ⟨0, 0⟩⟩, .critical, "bad"⟩)] ++
        (if true then [.terminalLine
            (terminal_log_line ⟨⟨"core", "12:00:00", ⟨0, 0⟩⟩, .critical, "bad"⟩)] else [])) :=
  ⟨(logger_handle_level_filter ⟨"sapphire.log", "warning", true⟩
      ⟨⟨"core", "12:00:00", ⟨0, 0⟩⟩, .debug, "noise"⟩ 2 rfl).2.1 (by decide),
   (logger_handle_level_filter ⟨"sapphire.log", "warning", true⟩
      ⟨⟨"core", "12:00:00", ⟨0, 0⟩⟩, .critical, "bad"⟩ 2 rfl).1 (by decide)⟩

/-- Claim C6: `file_log` appends exactly one line, of the bit-exact form
`[timestamp] [LEVEL-UPPERCASE] (Capitalized-Sender) message\n`; for sender
`"logger"`, level `info`, message `"ready"` it is the literal
`[ts] [INFO] (Logger) ready\n` for the event's timestamp `ts`. -/
theorem file_log_bit_exact (st : LoggerState) (ts : String) (ch : Chain) :
    (∀ e : LogEvent, file_log st e =
      [.fileLine st.log_file
        ("[" ++ e.timestamp ++ "] [" ++ pyUpper e.level.toStr ++ "] (" ++
          pyCapitalize e.sender ++ ") " ++ e.message ++ "\n")]) ∧
    file_log_line ⟨⟨"logger", ts, ch⟩, .info, "ready"⟩ =
      "[" ++ ts ++ "] [INFO] (Logger) ready\n" := by
  refine ⟨fun e => rfl, ?_⟩
  apply String.ext
  simp [file_log_line, pyUpper, pyCapitalize, Level.toStr]

/-- Modelled from the spec: `SapphireConfig` is code of this repository that
is missing from src/ (logger.py imports it from `sapphire.core.base`).
Spec section 6: a read-only key/value view with recognized keys
`logfile : string`, `level : string`, `terminal : boolean`; a missing key
falls back to the caller-stated default. -/
structure SapphireConfig where
  logfile : Option String := none
  level : Option String := none
  terminal : Option Bool := none
deriving DecidableEq, Repr

/-- Dictionary-style read `config.get(key, default)` for the `logfile`
key. -/
def SapphireConfig.getLogfile (cfg : SapphireConfig) (dflt : String) : String :=
  cfg.logfile.getD dflt

/-- Dictionary-style read `config.get(key, default)` for the `level` key. -/
def SapphireConfig.getLevel (cfg : SapphireConfig) (dflt : String) : String :=
  cfg.level.getD dflt

/-- Dictionary-style read `config.get(key, default)` for the `terminal`
key. -/
def SapphireConfig.getTerminal (cfg : SapphireConfig) (dflt : Bool) : Bool :=
  cfg.terminal.getD dflt

/-- Modelled from the spec: `SapphireModule.log` is code of this repository
that is missing from src/. Per sections 4.3/4.4 and the Event Model,
`self.log(chain, level, message)` stamps a `LogEvent` with
`sender = name() = "logger"`, the standard timestamp, and the given chain,
and publishes it through the emission callback; the embedding returns the
event that is emitted. -/
def Logger.selfLog (ch : Chain) (lvl : Level) (msg : String) (ts : String) : LogEvent :=
  { sender := "logger", timestamp := ts, chain := ch, level := lvl, message := msg }

/-- Method `Logger.start`: read `logfile` (default `"sapphire.log"`) and log
an info event naming its absolute path; read `level` (default `"info"`) and,
when it is not a `LEVELS` key, log a warning event and fall back to
`"info"`; read `terminal` (default `true`). The wall clock, `os.path.abspath`
and the chains returned by the two `SapphireEvents.chain()` calls are
external inputs passed as arguments. Returns the attribute state together
with the events emitted during `start`. -/
def Logger.start (cfg : SapphireConfig) (abspath : String → String)
    (ts : String) (ch1 ch2 : Chain) : LoggerState × List LogEvent :=
  let path := cfg.getLogfile "sapphire.log"
  let e1 := Logger.selfLog ch1 .info ("Now logging into file: " ++ abspath path) ts
  let lvl := cfg.getLevel "info"
  if (LEVELS_get lvl).isSome then
    (⟨path, lvl, cfg.getTerminal true⟩, [e1])
  else
    let e2 := Logger.selfLog ch2 .warning
      ("Invalid log level specified in config.toml '" ++ lvl ++ "'. Defaulting to 'info'") ts
    (⟨path, "info", cfg.getTerminal true⟩, [e1, e2])

/-- Claim C7: starting the logger with a configured level string that is not
a `LEVELS` key completes (the embedding is total: no raise path exists),
leaves the effective filtering level at `"info"`, and emits exactly one
warning-level log event during `start`. -/
theorem logger_start_invalid_level (cfg : SapphireConfig)
    (abspath : String → String) (ts : String) (ch1 ch2 : Chain) (lvl : String)
    (hl : cfg.level = some lvl) (hbad : LEVELS_get lvl = none) :
    (Logger.start cfg abspath ts ch1 ch2).1.log_level = "info" ∧
    ((Logger.start cfg abspath ts ch1 ch2).2.filter
        (fun e => e.level == Level.warning)).length = 1 := by
  simp [Logger.start, SapphireConfig.getLevel, hl, hbad, Logger.selfLog]

/-- Witness for C7 at the spec's example configuration `level = "verbose"`. -/
theorem logger_start_invalid_level_witness :
    (Logger.start ⟨none, some "verbose", none⟩ id "12:00:00" ⟨0, 0⟩ ⟨0, 1⟩).1.log_level =
      "info" ∧
    ((Logger.start ⟨none, some "verbose", none⟩ id "12:00:00" ⟨0, 0⟩ ⟨0, 1⟩).2.filter
        (fun e => e.level == Level.warning)).length = 1 :=
  logger_start_invalid_level ⟨none, some "verbose", none⟩ id "12:00:00" ⟨0, 0⟩ ⟨0, 1⟩
    "verbose" rfl rfl

end Sapphire
